import Mathlib

/-!
Shallow embedding of the real-time subtitle pipeline
(modules/translation.py, modules/language_detection.py,
modules/subtitle_renderer.py, modules/realtime_subtitle_system.py).

Modelling conventions:
* Python strings are Lean `String`; `str.strip()` is `pyStrip` (ASCII
  whitespace, which covers every character appearing in the claims).
* Wall-clock instants (`time.time()`) and confidence scores (floats in the
  source) are modelled as rationals `ℚ`; the source only compares them and
  adds constants, so the ordered-field structure is all that is used.
* External HTTP calls are modelled by an explicit response argument:
  `none` stands for any failure (non-200 status, malformed body, or a raised
  exception caught by the surrounding try/except), `some r` for a well-formed
  success payload.  Each embedded operation also reports whether the network
  call was issued.
* Timer callbacks scheduled with tkinter `root.after` are modelled by the
  absolute fire time of the (single) pending callback; `none` means no
  callback is pending.
* `subtitle_renderer.py` references the undefined name `parent_window` on
  lines 90, 115 and 143 (it is only a parameter of `initialize`, never a
  global), so those statements raise `NameError` at runtime.  Mutations made
  before the raise persist on the object, so each affected renderer
  operation returns the post-mutation state together with a Boolean
  recording whether the call raised.
-/

/-- Python `str.isspace` for the ASCII whitespace characters
(space, tab, newline, vertical tab, form feed, carriage return). -/
def pyIsSpace (c : Char) : Bool :=
  c = ' ' || c = Char.ofNat 9 || c = Char.ofNat 10 || c = Char.ofNat 11 ||
  c = Char.ofNat 12 || c = Char.ofNat 13

/-- Python `str.strip()`: remove leading and trailing whitespace. -/
def pyStrip (s : String) : String :=
  String.mk (((s.data.dropWhile pyIsSpace).reverse.dropWhile pyIsSpace).reverse)

/-! ### modules/translation.py -/

/-- The dictionary returned by `Translation.translate_text`
(keys `translated_text` and `original_text`). -/
structure TranslationResult where
  translated_text : String
  original_text : String
deriving DecidableEq, Repr

/-- Embedding of `Translation.translate_text` (modules/translation.py,
lines 20-71).  `target_language` is the field `self.target_language`;
`env` models the Azure Translator call (`some t` = HTTP 200 whose body
carries a first translation `t`; `none` = any failure).  The second component
of the result records whether the external network call was issued. -/
def translate_text (target_language : String) (env : Option String)
    (text : String) (source_language : String) : TranslationResult × Bool :=
  if text = "" || pyStrip text = "" then
    ({ translated_text := "", original_text := text }, false)
  else if source_language = target_language then
    ({ translated_text := text, original_text := text }, false)
  else
    match env with
    | some t => ({ translated_text := t, original_text := text }, true)
    | none => ({ translated_text := text, original_text := text }, true)

/-! ### modules/language_detection.py -/

/-- The language-hypothesis dictionary
(keys `language_code` and `confidence`). -/
structure LanguageHypothesis where
  language_code : String
  confidence : ℚ
deriving DecidableEq, Repr

/-- Mutable state of `LanguageDetection`: the cached hypothesis, the
confidence threshold (0.7 in `__init__`), the cooldown window
(`cache_expiry`, 60 seconds) and the time of the last accepted detection. -/
structure LDState where
  cached_language : Option LanguageHypothesis
  confidence_threshold : ℚ
  cache_expiry : ℚ
  last_detection_time : ℚ
deriving DecidableEq, Repr

/-- The built-in fallback returned while no detection has succeeded. -/
def defaultHypothesis : LanguageHypothesis :=
  { language_code := "en", confidence := 1 }

/-- `LanguageDetection.__init__`: empty cache, threshold 0.7, expiry 60 s,
`last_detection_time = 0`. -/
def ldInit : LDState :=
  { cached_language := none, confidence_threshold := 0.7, cache_expiry := 60,
    last_detection_time := 0 }

/-- The skip test on line 20 of modules/language_detection.py:
`not text or len(text.strip()) < 10 or
 (time.time() - self.last_detection_time < self.cache_expiry and self.cached_language)`. -/
def detectSkip (st : LDState) (now : ℚ) (text : String) : Bool :=
  text = "" || decide ((pyStrip text).length < 10) ||
    (decide (now - st.last_detection_time < st.cache_expiry) &&
      st.cached_language.isSome)

/-- Embedding of `LanguageDetection.detect_language` (lines 17-68).
`response` models the Azure language-identification call (`some dl` = a
well-formed HTTP 200 carrying `detectedLanguage` `dl`; `none` = any failure,
including a raised exception).  Returns the hypothesis handed back to the
caller, the updated detector state, and whether the network call was issued. -/
def detect_language (st : LDState) (now : ℚ) (response : Option LanguageHypothesis)
    (text : String) : LanguageHypothesis × LDState × Bool :=
  if detectSkip st now text then
    (st.cached_language.getD defaultHypothesis, st, false)
  else
    match response with
    | some dl =>
        if st.confidence_threshold < dl.confidence then
          (dl, { st with cached_language := some dl, last_detection_time := now },
            true)
        else
          (st.cached_language.getD defaultHypothesis, st, true)
    | none => (st.cached_language.getD defaultHypothesis, st, true)

/-! ### modules/subtitle_renderer.py -/

/-- One entry of `self.subtitles`
(keys `text`, `speaker`, `timestamp`). -/
structure Caption where
  text : String
  speaker : Option String
  timestamp : ℚ
deriving DecidableEq, Repr

/-- State of `SubtitleRenderer`: the visible caption list, the absolute fire
time of the single pending `root.after` fade callback (if any), and the
configuration fields `max_lines` and `fade_timeout`. -/
structure RendererState where
  subtitles : List Caption
  fade_timer : Option ℚ
  max_lines : Nat
  fade_timeout : ℚ
deriving DecidableEq, Repr

/-- `SubtitleRenderer.__init__` with the given configuration. -/
def rendererInit (max_lines : Nat) (fade_timeout : ℚ) : RendererState :=
  { subtitles := [], fade_timer := none, max_lines := max_lines,
    fade_timeout := fade_timeout }

/-- Python slice `lst[-k:]` for a natural `k`.  Note the Python corner case:
`-0 = 0`, so `lst[-0:]` is `lst[0:]`, the whole list. -/
def pySliceLast (k : Nat) (l : List Caption) : List Caption :=
  if k = 0 then l else l.drop (l.length - k)

/-- Embedding of `SubtitleRenderer.show_subtitle` (lines 65-97): cancel the
pending fade callback, append the new caption, keep only
`self.subtitles[-self.max_lines:]` when the count exceeds `max_lines`, and
update the display.  The bare `parent_window` on line 90 then raises
`NameError` before the `root.after` call on line 94 is reached, so the new
fade callback is never armed: the returned state has `fade_timer = none`,
the list mutations persist, and the Boolean records that the call raised
(always true). -/
def show_subtitle (st : RendererState) (now : ℚ) (text : String)
    (speaker : Option String) : RendererState × Bool :=
  let subs := st.subtitles ++ [{ text := text, speaker := speaker, timestamp := now }]
  let subs := if st.max_lines < subs.length then pySliceLast st.max_lines subs else subs
  ({ st with subtitles := subs, fade_timer := none }, true)

/-- Embedding of `SubtitleRenderer.fade_oldest_subtitle` (lines 99-116), the
body of the fade callback fired at `fired_at`: pop the oldest caption and
reschedule the next fade `fade_timeout` later if captions remain; when the
pop empties the list, the bare `parent_window` on line 115 raises
`NameError` after the recorded state updates, which the Boolean records.
In the program this callback is unreachable, because `show_subtitle` raises
before ever arming a timer; it is embedded so that the timed-execution
model below can state that fact. -/
def fade_oldest_subtitle (st : RendererState) (fired_at : ℚ) : RendererState × Bool :=
  match st.subtitles with
  | [] => ({ st with fade_timer := none }, false)
  | _ :: rest =>
      ({ st with
          subtitles := rest
          fade_timer := if rest.isEmpty then none
            else some (fired_at + st.fade_timeout) },
        rest.isEmpty)

/-- Embedding of `SubtitleRenderer.clear` (lines 133-144): empty the caption
list, update the display and cancel any pending fade callback; the bare
`parent_window` on line 143 then raises `NameError`, which the Boolean
records (always true); the mutations persist. -/
def clear (st : RendererState) : RendererState × Bool :=
  ({ st with subtitles := [], fade_timer := none }, true)

/-- Fire every pending fade callback whose scheduled time is at most `t`,
in order.  Each firing on a nonempty caption list removes one caption, so
`subtitles.length + 1` steps of fuel always suffice. -/
def fireDueFuel : Nat → RendererState → ℚ → RendererState
  | 0, st, _ => st
  | n + 1, st, t =>
      match st.fade_timer with
      | some ft => if ft ≤ t then fireDueFuel n (fade_oldest_subtitle st ft).1 t else st
      | none => st

/-- Fire all fade callbacks due at or before `t`. -/
def fireDue (st : RendererState) (t : ℚ) : RendererState :=
  fireDueFuel (st.subtitles.length + 1) st t

/-- A burst of consecutive `show_subtitle` calls, with no timer callback
running in between (tkinter's loop is single threaded).  Each call raises
`NameError` after its list mutations; the fold threads the persisted
states. -/
def insertAll (st : RendererState) (evs : List (ℚ × String)) : RendererState :=
  evs.foldl (fun s e => (show_subtitle s e.1 e.2 none).1) st

/-- Timed execution of a (time-sorted) insertion schedule: before each
insertion, all fade callbacks already due have fired. -/
def runEvents (st : RendererState) (evs : List (ℚ × String)) : RendererState :=
  evs.foldl (fun s e => (show_subtitle (fireDue s e.1) e.1 e.2 none).1) st

/-- The texts visible at time `t` under the insertion schedule `evs`,
starting from a freshly initialized renderer: all insertions up to `t` have
happened and all fade callbacks due by `t` have fired. -/
def visibleAt (max_lines : Nat) (fade_timeout : ℚ) (evs : List (ℚ × String))
    (t : ℚ) : List String :=
  (fireDue (runEvents (rendererInit max_lines fade_timeout)
    (evs.filter (fun e => e.1 ≤ t))) t).subtitles.map Caption.text

/-! ### modules/realtime_subtitle_system.py -/

/-- A transcript event as delivered by `SpeechToText._recognizing_callback`
(`is_final = False`, lines 75-82) or `SpeechToText._recognized_callback`
(`is_final = True`, lines 84-92). -/
structure TranscriptEvent where
  text : String
  is_final : Bool
deriving DecidableEq, Repr

/-- External world observed during one `_handle_transcription` run: the
current time and the responses of the two remote services. -/
structure Env where
  now : ℚ
  det_response : Option LanguageHypothesis
  tr_response : Option String
deriving DecidableEq, Repr

/-- State of `RealTimeSubtitleSystem` relevant to the claims: the running
flag, the current/target languages, the language-detection state, the
renderer (`has_renderer = false` models `self.subtitle_renderer` still
`None` while the GUI thread has not finished), and the component run flags
`AudioCapture.is_recording` and `SpeechToText.is_recognizing`. -/
structure SystemState where
  is_running : Bool
  current_language : String
  target_language : String
  ld : LDState
  renderer : RendererState
  has_renderer : Bool
  audio_recording : Bool
  recognizing : Bool
deriving DecidableEq, Repr

/-- Observable calls issued by `_handle_transcription`, in program order. -/
inductive Effect where
  | detect (text : String)
  | set_language (code : String)
  | translate (text source : String)
  | show_subtitle (text : String)
deriving DecidableEq, Repr

/-- Embedding of `RealTimeSubtitleSystem._handle_transcription`
(lines 172-194).  Mirrors the source: events are dropped when the system is
not running or the text is empty; language detection runs only for final
events longer than 15 characters (a detected-language change updates
`current_language` and calls `SpeechToText.set_language`, which stops the
recognition session); the text is then translated with the (possibly
updated) `current_language` as source, and the result is shown when the
renderer exists (the renderer call appends the caption and then raises
`NameError` out of the handler, so the recorded state and calls are the
ones already performed at that point).  Returns the new state and the
ordered list of calls. -/
def handle_transcription (st : SystemState) (env : Env) (ev : TranscriptEvent) :
    SystemState × List Effect :=
  if st.is_running = false || ev.text = "" then (st, [])
  else
    let step1 :=
      if ev.is_final && decide (15 < ev.text.length) then
        let d := detect_language st.ld env.now env.det_response ev.text
        if d.1.language_code ≠ st.current_language then
          ({ st with
              ld := d.2.1
              current_language := d.1.language_code
              recognizing := false },
            [Effect.detect ev.text, Effect.set_language d.1.language_code])
        else ({ st with ld := d.2.1 }, [Effect.detect ev.text])
      else (st, [])
    let st1 := step1.1
    let tr := translate_text st1.target_language env.tr_response ev.text
      st1.current_language
    let effs := step1.2 ++ [Effect.translate ev.text st1.current_language]
    if st1.has_renderer then
      ({ st1 with
          renderer := (show_subtitle st1.renderer env.now tr.1.translated_text none).1 },
        effs ++ [Effect.show_subtitle tr.1.translated_text])
    else (st1, effs)

/-- The component calls issued by `RealTimeSubtitleSystem.stop`, in program
order. -/
inductive StopAction where
  | stop_recording
  | stop_recognition
  | clear_renderer
deriving DecidableEq, Repr

/-- Embedding of `RealTimeSubtitleSystem.stop` (lines 138-158): fail fast
when not running; otherwise call `AudioCapture.stop_recording`, then
`SpeechToText.stop_recognition`, then (when the renderer exists)
`SubtitleRenderer.clear`.  When a renderer exists, `clear` raises
`NameError` out of `stop` after emptying the caption list, so line 156
(`self.is_running = False`) and the `return True` are never reached: the
result is `none` (exception) and the running flag stays set.  Without a
renderer, `stop` clears the running flag and returns `some true`.  The
first component is the returned value (`none` = exception propagated), then
the new state and the ordered call list. -/
def stop (st : SystemState) : Option Bool × SystemState × List StopAction :=
  if st.is_running = false then (some false, st, [])
  else if st.has_renderer then
    (none,
      { st with
        audio_recording := false
        recognizing := false
        renderer := (clear st.renderer).1 },
      [StopAction.stop_recording, StopAction.stop_recognition,
        StopAction.clear_renderer])
  else
    (some true,
      { st with
        is_running := false
        audio_recording := false
        recognizing := false },
      [StopAction.stop_recording, StopAction.stop_recognition])

/-- Result of `RealTimeSubtitleSystem.start`: `ret = some b` models a normal
return of `b`; `ret = none` models an exception propagating out of `start`
(the source wraps `start_recognition` in no try/except, so a failure inside
the Azure SDK escapes `start`). -/
structure StartOutcome where
  ret : Option Bool
  st : SystemState
deriving DecidableEq, Repr

/-- Embedding of `RealTimeSubtitleSystem.start` (lines 114-136).
`mic_ok` is the boolean returned by
`AudioCapture.initialize_microphone_capture`; `recognizer_ok = false` models
`SpeechToText.start_recognition` raising.  The source sets `is_running` and
returns `True` only after both component starts; it contains no rollback
path, so a recognizer failure leaves `audio_recording = true`. -/
def start (st : SystemState) (mic_ok recognizer_ok : Bool) : StartOutcome :=
  if st.is_running then { ret := some false, st := st }
  else if mic_ok = false then { ret := some false, st := st }
  else
    if recognizer_ok then
      { ret := some true
        st := { st with
          audio_recording := true
          recognizing := true
          is_running := true } }
    else
      { ret := none
        st := { st with audio_recording := true, recognizing := false } }

/-! ### Concurrent delivery of transcript events

`_handle_transcription` is an `async def`; its awaits (the detection and
translation calls) are the points where a second concurrently delivered
event may interleave with it.  The source takes no lock and uses no queue,
so the observable call sequences of two concurrent handler runs may combine
into any order-preserving merge of the two individual traces. -/

/-- `Merge l r m`: `m` is an interleaving of `l` and `r` that preserves the
internal order of each. -/
inductive Merge {α : Type} : List α → List α → List α → Prop where
  | nil : Merge [] [] []
  | left : ∀ {x : α} {xs ys zs : List α}, Merge xs ys zs → Merge (x :: xs) ys (x :: zs)
  | right : ∀ {y : α} {xs ys zs : List α}, Merge xs ys zs → Merge xs (y :: ys) (y :: zs)

/-- The trace of handler `i`'s calls, each tagged with the arrival index `i`
of the transcript event that produced it.  Both concurrent handlers observe
the same pre-state `st`, as happens when the second event arrives before the
first handler's translation call has completed. -/
def eventTrace (st : SystemState) (env : Env) (i : Nat) (ev : TranscriptEvent) :
    List (Nat × Effect) :=
  (handle_transcription st env ev).2.map (fun e => (i, e))

/-- The arrival indices of the renderer insertions occurring in a merged
trace, in execution order. -/
def insertIndices (l : List (Nat × Effect)) : List Nat :=
  l.filterMap (fun p =>
    match p.2 with
    | Effect.show_subtitle _ => some p.1
    | _ => none)

/-- The texts inserted into the renderer by a single handler's call list. -/
def showsOf (l : List Effect) : List String :=
  l.filterMap (fun e =>
    match e with
    | Effect.show_subtitle t => some t
    | _ => none)

/-! ### Shared concrete states used by witnesses and counterexamples -/

/-- A running system with the default languages, a live renderer configured
as in `_init_subtitle_renderer` (`max_lines = 2`, `fade_timeout = 5`), and
both components active. -/
def sysRun : SystemState :=
  { is_running := true, current_language := "en", target_language := "en",
    ld := ldInit, renderer := rendererInit 2 5, has_renderer := true,
    audio_recording := true, recognizing := true }

/-- The same system before `start`: nothing is running. -/
def sysIdle : SystemState :=
  { sysRun with is_running := false, audio_recording := false, recognizing := false }

/-- A benign environment: detection fails, translation would return "X". -/
def envX : Env := { now := 0, det_response := none, tr_response := some "X" }

/-- The insertion schedule of the spec's renderer example:
"A" at t = 0, "B" at t = 1, "C" at t = 2. -/
def exampleSchedule : List (ℚ × String) := [(0, "A"), (1, "B"), (2, "C")]

/-! ### Helper lemmas -/

lemma dropWhile_length_le {α : Type} (p : α → Bool) (l : List α) :
    (l.dropWhile p).length ≤ l.length := by
  induction l with
  | nil => simp
  | cons a l ih =>
      by_cases h : p a
      · simp only [List.dropWhile_cons, h, if_true]
        exact le_trans ih (Nat.le_succ _)
      · simp [List.dropWhile_cons, h]

lemma pyStrip_length_le (s : String) : (pyStrip s).length ≤ s.length := by
  have h1 := dropWhile_length_le pyIsSpace s.data
  have h2 := dropWhile_length_le pyIsSpace (s.data.dropWhile pyIsSpace).reverse
  simp only [pyStrip, String.length, List.length_reverse] at *
  omega

lemma drop_suffix_length_le {α : Type} (k : Nat) (l : List α) :
    (l.drop (l.length - k)).length ≤ k := by
  simp only [List.length_drop]
  omega

lemma show_subtitle_max_lines (st : RendererState) (now : ℚ) (txt : String)
    (sp : Option String) : (show_subtitle st now txt sp).1.max_lines = st.max_lines := rfl

lemma show_subtitle_subtitles (st : RendererState) (now : ℚ) (txt : String)
    (sp : Option String) (h : 1 ≤ st.max_lines) :
    (show_subtitle st now txt sp).1.subtitles =
      (st.subtitles ++ [({ text := txt, speaker := sp, timestamp := now } : Caption)]).drop
        ((st.subtitles.length + 1) - st.max_lines) := by
  simp only [show_subtitle]
  by_cases hlen : st.max_lines < st.subtitles.length + 1
  · simp only [List.length_append, List.length_cons, List.length_nil, hlen, if_true,
      pySliceLast]
    have hk : st.max_lines ≠ 0 := by omega
    simp [hk, List.length_append]
  · simp only [List.length_append, List.length_cons, List.length_nil, hlen, if_false]
    have : st.subtitles.length + 1 - st.max_lines = 0 := by omega
    simp [this]

lemma suffix_drop_append {α : Type} (l m : List α) (k : Nat) :
    (l.drop (l.length - k) ++ m).drop ((l.drop (l.length - k)).length + m.length - k) =
      (l ++ m).drop (l.length + m.length - k) := by
  simp only [List.drop_append_eq_append_drop, List.length_drop, List.drop_drop]
  have h1 : l.length - k + (l.length - (l.length - k) + m.length - k) =
      l.length + m.length - k := by omega
  have h2 : l.length - (l.length - k) + m.length - k - (l.length - (l.length - k)) =
      l.length + m.length - k - l.length := by omega
  rw [h1, h2]

/-- The caption built by one `show_subtitle` call of `insertAll`. -/
def mkCaption (e : ℚ × String) : Caption :=
  { text := e.2, speaker := none, timestamp := e.1 }

lemma insertAll_subtitles (evs : List (ℚ × String)) :
    ∀ st : RendererState, 1 ≤ st.max_lines → st.subtitles.length ≤ st.max_lines →
      (insertAll st evs).subtitles =
        (st.subtitles ++ evs.map mkCaption).drop
          ((st.subtitles.length + (evs.map mkCaption).length) - st.max_lines) := by
  induction evs with
  | nil =>
      intro st h1 h2
      have h3 : st.subtitles.length - st.max_lines = 0 := by omega
      simp [insertAll, h3]
  | cons e evs ih =>
      intro st h1 h2
      have hstep : insertAll st (e :: evs) =
          insertAll (show_subtitle st e.1 e.2 none).1 evs := by
        simp [insertAll]
      rw [hstep]
      have hmax : (show_subtitle st e.1 e.2 none).1.max_lines = st.max_lines :=
        show_subtitle_max_lines st e.1 e.2 none
      have hsubs := show_subtitle_subtitles st e.1 e.2 none h1
      have hlen : (show_subtitle st e.1 e.2 none).1.subtitles.length ≤
          (show_subtitle st e.1 e.2 none).1.max_lines := by
        rw [hsubs, hmax]
        have := drop_suffix_length_le st.max_lines
          (st.subtitles ++ [({ text := e.2, speaker := none, timestamp := e.1 } : Caption)])
        simpa using this
      have hih := ih (show_subtitle st e.1 e.2 none).1 (by rw [hmax]; exact h1) hlen
      rw [hih, hmax, hsubs]
      have harr : (st.subtitles ++ [({ text := e.2, speaker := none, timestamp := e.1 } : Caption)]).length =
          st.subtitles.length + 1 := by simp
      have hkey := suffix_drop_append
        (st.subtitles ++ [({ text := e.2, speaker := none, timestamp := e.1 } : Caption)])
        (evs.map mkCaption) st.max_lines
      rw [harr] at hkey
      rw [hkey]
      simp only [List.append_assoc, List.map_cons, List.singleton_append]
      congr 1
      simp only [List.length_cons]
      omega

lemma showsOf_append (l m : List Effect) : showsOf (l ++ m) = showsOf l ++ showsOf m :=
  List.filterMap_append l m _

lemma insertIndices_append (l m : List (Nat × Effect)) :
    insertIndices (l ++ m) = insertIndices l ++ insertIndices m :=
  List.filterMap_append l m _

lemma insertIndices_map (i : Nat) (l : List Effect) :
    insertIndices (l.map (fun e => (i, e))) = (showsOf l).map (fun _ => i) := by
  induction l with
  | nil => rfl
  | cons e l ih =>
      cases e <;>
        simp only [List.map_cons, insertIndices, showsOf, List.filterMap_cons] <;>
        simp only [insertIndices, showsOf] at ih <;> simp [ih]

lemma handle_flags (st : SystemState) (env : Env) (ev : TranscriptEvent) :
    (handle_transcription st env ev).1.is_running = st.is_running ∧
    (handle_transcription st env ev).1.has_renderer = st.has_renderer ∧
    (handle_transcription st env ev).1.target_language = st.target_language := by
  simp only [handle_transcription]
  split_ifs <;> simp

lemma handle_showsOf (st : SystemState) (env : Env) (ev : TranscriptEvent)
    (h1 : st.is_running = true) (h2 : ev.text ≠ "") (h3 : st.has_renderer = true) :
    ∃ t, showsOf (handle_transcription st env ev).2 = [t] := by
  simp only [handle_transcription, h1, h2]
  split_ifs <;> simp_all [showsOf]

lemma fireDue_of_no_timer (st : RendererState) (t : ℚ) (h : st.fade_timer = none) :
    fireDue st t = st := by
  simp [fireDue, fireDueFuel, h]

lemma runEvents_no_timer (evs : List (ℚ × String)) :
    ∀ st : RendererState, st.fade_timer = none →
      (runEvents st evs).fade_timer = none := by
  induction evs with
  | nil =>
      intro st h
      simpa [runEvents] using h
  | cons e evs ih =>
      intro st h
      have hstep : runEvents st (e :: evs) =
          runEvents (show_subtitle (fireDue st e.1) e.1 e.2 none).1 evs := by
        simp [runEvents]
      rw [hstep]
      exact ih _ rfl

/-! ### Claim C1 -/

/-- Claim C1, as stated, is false: for an interim transcript
(`is_final = false`) with nonempty text handled while the pipeline runs,
`_handle_transcription` does issue a Translator call and does insert a
caption into the Renderer — only language detection is gated on finality. -/
theorem c1_counterexample :
    Effect.translate "Hello" "en" ∈
      (handle_transcription sysRun envX { text := "Hello", is_final := false }).2 ∧
    Effect.show_subtitle "Hello" ∈
      (handle_transcription sysRun envX { text := "Hello", is_final := false }).2 := by
  decide

/-- Claim C1 (amended): for every transcript event with `is_final = false`,
no language-detection call, no recognizer-language change and no
detector-state change results from the event; however, when the pipeline is
running, the text is nonempty and the renderer exists, the event is
translated and inserted into the Renderer exactly like a final one. -/
theorem c1_amended (st : SystemState) (env : Env) (ev : TranscriptEvent)
    (hfin : ev.is_final = false) :
    (∀ t, Effect.detect t ∉ (handle_transcription st env ev).2) ∧
    (∀ c, Effect.set_language c ∉ (handle_transcription st env ev).2) ∧
    (handle_transcription st env ev).1.ld = st.ld ∧
    (handle_transcription st env ev).1.current_language = st.current_language ∧
    (st.is_running = true → ev.text ≠ "" → st.has_renderer = true →
      Effect.translate ev.text st.current_language ∈ (handle_transcription st env ev).2 ∧
      Effect.show_subtitle (translate_text st.target_language env.tr_response ev.text
        st.current_language).1.translated_text ∈ (handle_transcription st env ev).2) := by
  have hstep : (ev.is_final && decide (15 < ev.text.length)) = false := by
    simp [hfin]
  simp only [handle_transcription, hstep, Bool.false_eq_true, if_false]
  split_ifs with h1 h2
  · refine ⟨by simp, by simp, rfl, rfl, ?_⟩
    intro ha hb _
    simp only [Bool.or_eq_true, decide_eq_true_eq] at h1
    rcases h1 with h | h
    · rw [ha] at h
      exact Bool.noConfusion h
    · exact absurd h hb
  · refine ⟨by simp, by simp, rfl, rfl, ?_⟩
    intro _ _ _
    exact ⟨by simp, by simp⟩
  · refine ⟨by simp, by simp, rfl, rfl, ?_⟩
    intro _ _ hc
    exact absurd hc h2

/-- Witness for `c1_amended` at a concrete interim event. -/
theorem c1_witness :
    (handle_transcription sysRun envX { text := "Hey", is_final := false }).1.ld =
      sysRun.ld ∧
    Effect.translate "Hey" "en" ∈
      (handle_transcription sysRun envX { text := "Hey", is_final := false }).2 := by
  have h := c1_amended sysRun envX { text := "Hey", is_final := false } rfl
  exact ⟨h.2.2.1, (h.2.2.2.2 rfl (by decide) rfl).1⟩

/-! ### Claim C2 -/

/-- Claim C2, as stated, is false: the source serializes nothing, so the
interleaving in which the second event's translation completes first is a
legal merge of the two handler traces, and it inserts the captions in the
order [2, 1], not the arrival order [1, 2]. -/
theorem c2_counterexample :
    Merge (eventTrace sysRun envX 1 { text := "Hi", is_final := true })
      (eventTrace sysRun envX 2 { text := "Yo", is_final := true })
      [(1, Effect.translate "Hi" "en"), (2, Effect.translate "Yo" "en"),
        (2, Effect.show_subtitle "Yo"), (1, Effect.show_subtitle "Hi")] ∧
    insertIndices
      [(1, Effect.translate "Hi" "en"), (2, Effect.translate "Yo" "en"),
        (2, Effect.show_subtitle "Yo"), (1, Effect.show_subtitle "Hi")] = [2, 1] ∧
    ([2, 1] : List Nat) ≠ [1, 2] := by
  refine ⟨?_, by decide, by decide⟩
  have e1 : eventTrace sysRun envX 1 { text := "Hi", is_final := true } =
      [(1, Effect.translate "Hi" "en"), (1, Effect.show_subtitle "Hi")] := by decide
  have e2 : eventTrace sysRun envX 2 { text := "Yo", is_final := true } =
      [(2, Effect.translate "Yo" "en"), (2, Effect.show_subtitle "Yo")] := by decide
  rw [e1, e2]
  exact Merge.left (Merge.right (Merge.right (Merge.left Merge.nil)))

/-- Claim C2 (amended): when the two handler runs do not overlap — the
second event is processed from the state left by the first — the renderer
insertions occur in arrival order [1, 2].  Under concurrent delivery the
source provides no serialization and out-of-order insertion is possible
(see the counterexample). -/
theorem c2_amended (st : SystemState) (env1 env2 : Env) (ev1 ev2 : TranscriptEvent)
    (hrun : st.is_running = true) (hren : st.has_renderer = true)
    (ht1 : ev1.text ≠ "") (ht2 : ev2.text ≠ "") :
    insertIndices
      ((handle_transcription st env1 ev1).2.map (fun e => (1, e)) ++
        (handle_transcription (handle_transcription st env1 ev1).1 env2 ev2).2.map
          (fun e => (2, e))) = [1, 2] := by
  obtain ⟨t1, hs1⟩ := handle_showsOf st env1 ev1 hrun ht1 hren
  have hf := handle_flags st env1 ev1
  obtain ⟨t2, hs2⟩ := handle_showsOf (handle_transcription st env1 ev1).1 env2 ev2
    (by rw [hf.1, hrun]) ht2 (by rw [hf.2.1, hren])
  rw [insertIndices_append, insertIndices_map, insertIndices_map, hs1, hs2]
  simp

/-- Witness for `c2_amended` at two concrete final transcripts. -/
theorem c2_witness :
    insertIndices
      ((handle_transcription sysRun envX { text := "Hi", is_final := true }).2.map
          (fun e => (1, e)) ++
        (handle_transcription
          (handle_transcription sysRun envX { text := "Hi", is_final := true }).1 envX
          { text := "Yo", is_final := true }).2.map (fun e => (2, e))) = [1, 2] :=
  c2_amended sysRun envX envX { text := "Hi", is_final := true }
    { text := "Yo", is_final := true } rfl rfl (by decide) (by decide)

/-! ### Claim C3 -/

/-- Claim C3, as stated, is false: `stop` on a running system calls
`AudioCapture.stop_recording` first and `SpeechToText.stop_recognition`
second, the reverse of the claimed recognizer-first order; moreover, with a
renderer present the renderer clear raises out of `stop` (result `none`)
and the running flag is never cleared. -/
theorem c3_counterexample :
    (stop sysRun).2.2 =
      [StopAction.stop_recording, StopAction.stop_recognition,
        StopAction.clear_renderer] ∧
    ([StopAction.stop_recording, StopAction.stop_recognition,
        StopAction.clear_renderer] : List StopAction) ≠
      [StopAction.stop_recognition, StopAction.stop_recording,
        StopAction.clear_renderer] ∧
    (stop sysRun).1 = none ∧
    (stop sysRun).2.1.is_running = true := by
  decide

/-- Claim C3 (amended): `stop` on a running system stops the Audio Source
first, then the Recognizer, then calls the Renderer's clear (when the
renderer exists), in exactly that order — the reverse of the claimed
recognizer-first order.  When a renderer exists, the clear raises
`NameError` (undefined `parent_window`) out of `stop` after emptying the
caption list: `stop` never returns and the running flag stays set, though
the audio and recognition components were already stopped.  Without a
renderer, `stop` returns `true` and clears the running flag.  `stop` while
not running returns `false` and changes nothing. -/
theorem c3_amended (st : SystemState) :
    (st.is_running = true →
      (stop st).2.2 = [StopAction.stop_recording, StopAction.stop_recognition] ++
        (if st.has_renderer then [StopAction.clear_renderer] else []) ∧
      (stop st).2.1.audio_recording = false ∧
      (stop st).2.1.recognizing = false ∧
      (st.has_renderer = true →
        (stop st).1 = none ∧
        (stop st).2.1.is_running = true ∧
        (stop st).2.1.renderer.subtitles = []) ∧
      (st.has_renderer = false →
        (stop st).1 = some true ∧
        (stop st).2.1.is_running = false)) ∧
    (st.is_running = false → stop st = (some false, st, [])) := by
  constructor
  · intro h
    by_cases hr : st.has_renderer = true
    · simp [stop, h, hr, clear]
    · have hr2 : st.has_renderer = false := by
        cases hb : st.has_renderer
        · rfl
        · exact absurd hb hr
      simp [stop, h, hr2]
  · intro h
    simp [stop, h]

/-- Witness for `c3_amended` on the running system (renderer present) and
the idle system. -/
theorem c3_witness :
    (stop sysRun).1 = none ∧ (stop sysRun).2.1.is_running = true ∧
    stop sysIdle = (some false, sysIdle, []) :=
  ⟨(((c3_amended sysRun).1 rfl).2.2.2.1 rfl).1,
    (((c3_amended sysRun).1 rfl).2.2.2.1 rfl).2.1,
    (c3_amended sysIdle).2 rfl⟩

/-! ### Claim C4 -/

/-- Claim C4, as stated, is false: when the microphone initializes but the
recognizer start fails, `start` propagates the failure (modelled by
`ret = none`) with the Audio Source still recording — there is no rollback
path in the source, so a component does remain running after the failed
start. -/
theorem c4_counterexample :
    (start sysIdle true false).ret = none ∧
    (start sysIdle true false).st.audio_recording = true ∧
    (start sysIdle true false).st.audio_recording ≠ false := by
  decide

/-- Claim C4 (amended): from a non-running state, a microphone-initialization
failure makes `start` return `false` with no state change; but when the
Audio Source starts and the Recognizer fails, the failure propagates with
the Audio Source left recording (`is_running` stays false, partial start is
the resulting state); only when both starts succeed does `start` return
`true` and mark the system running. -/
theorem c4_amended (st : SystemState) (hrun : st.is_running = false) :
    (∀ rok : Bool, start st false rok = { ret := some false, st := st }) ∧
    ((start st true false).ret = none ∧
      (start st true false).st.audio_recording = true ∧
      (start st true false).st.recognizing = false ∧
      (start st true false).st.is_running = false) ∧
    ((start st true true).ret = some true ∧
      (start st true true).st.is_running = true) := by
  refine ⟨?_, ?_, ?_⟩ <;> simp [start, hrun]

/-- Witness for `c4_amended` on the idle system. -/
theorem c4_witness :
    start sysIdle false true = { ret := some false, st := sysIdle } ∧
    (start sysIdle true false).ret = none :=
  ⟨(c4_amended sysIdle rfl).1 true, (c4_amended sysIdle rfl).2.1.1⟩

/-! ### Claim C5 -/

/-- Claim C5, as stated, is false at `max_lines = 0`: Python's
`self.subtitles[-0:]` is the whole list, so one `show_subtitle` call on a
renderer configured with max-lines 0 leaves 1 visible line, exceeding the
configured bound (and N+1 = 1 insertions do not leave N = 0 lines). -/
theorem c5_counterexample :
    (show_subtitle (rendererInit 0 5) 0 "A" none).1.subtitles.length = 1 ∧
    ¬((show_subtitle (rendererInit 0 5) 0 "A" none).1.subtitles.length ≤
      (rendererInit 0 5).max_lines) := by
  decide

/-- Claim C5 (amended): for every max-lines bound of at least 1, a
`show_subtitle` call leaves at most max-lines visible captions whatever the
previous state; any burst of insertions from a within-bounds state stays
within bounds; and from an empty renderer, N+1 insertions with max-lines =
N ≥ 1 leave exactly the last N captions — the oldest (first) insertion is
the one evicted, independently of any fade deadline. -/
theorem c5_amended :
    (∀ (st : RendererState) (now : ℚ) (txt : String) (sp : Option String),
      1 ≤ st.max_lines →
      (show_subtitle st now txt sp).1.subtitles.length ≤ st.max_lines) ∧
    (∀ (st : RendererState) (evs : List (ℚ × String)),
      1 ≤ st.max_lines → st.subtitles.length ≤ st.max_lines →
      (insertAll st evs).subtitles.length ≤ st.max_lines) ∧
    (∀ (N : Nat) (ft : ℚ) (evs : List (ℚ × String)),
      1 ≤ N → evs.length = N + 1 →
      (insertAll (rendererInit N ft) evs).subtitles = (evs.map mkCaption).drop 1 ∧
      (insertAll (rendererInit N ft) evs).subtitles.length = N) := by
  refine ⟨?_, ?_, ?_⟩
  · intro st now txt sp h
    rw [show_subtitle_subtitles st now txt sp h]
    simp only [List.length_drop, List.length_append, List.length_cons, List.length_nil]
    omega
  · intro st evs h1 h2
    rw [insertAll_subtitles evs st h1 h2]
    simp only [List.length_drop, List.length_append, List.length_map]
    omega
  · intro N ft evs h1 h2
    have hml : (rendererInit N ft).max_lines = N := rfl
    have hsub : (rendererInit N ft).subtitles = [] := rfl
    have h := insertAll_subtitles evs (rendererInit N ft)
      (by rw [hml]; exact h1) (by rw [hsub, hml]; simp)
    rw [hsub, hml] at h
    simp only [List.nil_append, List.length_nil, Nat.zero_add, List.length_map, h2] at h
    have hdrop : N + 1 - N = 1 := by omega
    rw [hdrop] at h
    refine ⟨h, ?_⟩
    rw [h]
    simp [List.length_drop, List.length_map, h2]

/-- Witness for `c5_amended` at concrete renderers and insertion bursts. -/
theorem c5_witness :
    (show_subtitle (rendererInit 2 5) 0 "A" none).1.subtitles.length ≤
      (rendererInit 2 5).max_lines ∧
    (insertAll (rendererInit 1 5) [(0, "A"), (1, "B")]).subtitles =
      (([(0, "A"), (1, "B")] : List (ℚ × String)).map mkCaption).drop 1 :=
  ⟨c5_amended.1 (rendererInit 2 5) 0 "A" none (by decide),
    (c5_amended.2.2 1 5 [(0, "A"), (1, "B")] (by decide) (by decide)).1⟩

/-! ### Claim C6 -/

/-- Claim C6, as stated, is false: `show_subtitle` raises `NameError` on
line 90 before the `root.after` call on line 94, so the fade timer is never
armed and no caption ever fades.  With max-lines 2 and fade timeout 5,
inserting "A" at t = 0, "B" at t = 1 and "C" at t = 2, the visible set is
still ["B", "C"] at t = 6 (the claim says "B" is evicted at t = 6 leaving
["C"]) and still ["B", "C"] at t = 7 (the claim says "C" is evicted leaving
[]). -/
theorem c6_counterexample :
    visibleAt 2 5 exampleSchedule 6 = ["B", "C"] ∧
    (["B", "C"] : List String) ≠ ["C"] ∧
    visibleAt 2 5 exampleSchedule 7 = ["B", "C"] ∧
    (["B", "C"] : List String) ≠ [] := by
  refine ⟨?_, by decide, ?_, by decide⟩ <;>
    norm_num [visibleAt, runEvents, fireDue, fireDueFuel, rendererInit, show_subtitle,
      fade_oldest_subtitle, pySliceLast, exampleSchedule, List.filter]

/-- Claim C6 (amended): no caption is ever fade-evicted.  `show_subtitle`
cancels any pending fade callback and then raises `NameError` (undefined
`parent_window`, line 90) before `root.after` on line 94, so after any
insertion schedule no fade callback is pending and firing timers is a
no-op; concretely, with max-lines 2 and fade timeout 5, inserting "A" at
t = 0, "B" at t = 1, "C" at t = 2 leaves the visible set ["B", "C"] at
t = 2 and at every later time ("A" is evicted by capacity only). -/
theorem c6_amended :
    (∀ (m : Nat) (f : ℚ) (evs : List (ℚ × String)),
      (runEvents (rendererInit m f) evs).fade_timer = none) ∧
    (∀ (m : Nat) (f : ℚ) (evs : List (ℚ × String)) (t : ℚ),
      fireDue (runEvents (rendererInit m f) evs) t =
        runEvents (rendererInit m f) evs) ∧
    visibleAt 2 5 exampleSchedule 2 = ["B", "C"] ∧
    visibleAt 2 5 exampleSchedule 6 = ["B", "C"] ∧
    visibleAt 2 5 exampleSchedule 7 = ["B", "C"] ∧
    visibleAt 2 5 exampleSchedule 12 = ["B", "C"] := by
  have h1 : ∀ (m : Nat) (f : ℚ) (evs : List (ℚ × String)),
      (runEvents (rendererInit m f) evs).fade_timer = none := by
    intro m f evs
    exact runEvents_no_timer evs (rendererInit m f) rfl
  refine ⟨h1, fun m f evs t => fireDue_of_no_timer _ t (h1 m f evs), ?_, ?_, ?_, ?_⟩ <;>
    norm_num [visibleAt, runEvents, fireDue, fireDueFuel, rendererInit, show_subtitle,
      fade_oldest_subtitle, pySliceLast, exampleSchedule, List.filter]

/-! ### Claim C7 -/

/-- Claim C7, as stated, is false for whitespace-only text: with source ==
target, `translate_text " "` returns the empty string as the translated
text, not the input unchanged (the empty/whitespace check precedes the
same-language short-circuit). -/
theorem c7_counterexample :
    (translate_text "en" (some "X") " " "en").1.translated_text = "" ∧
    (translate_text "en" (some "X") " " "en").1.translated_text ≠ " " ∧
    (translate_text "en" (some "X") " " "en").2 = false := by
  decide

/-- Claim C7 (amended): for every text that is not whitespace-only, a
`translate_text` call whose source language equals the configured target
language returns the text unchanged and issues no network call. -/
theorem c7_amended (target : String) (env : Option String) (text : String)
    (h : pyStrip text ≠ "") :
    translate_text target env text target =
      ({ translated_text := text, original_text := text }, false) := by
  have htext : text ≠ "" := by
    intro he
    apply h
    rw [he]
    rfl
  simp [translate_text, htext, h]

/-- Witness for `c7_amended` at a concrete same-language call. -/
theorem c7_witness :
    translate_text "es" none "Hola" "es" =
      ({ translated_text := "Hola", original_text := "Hola" }, false) :=
  c7_amended "es" none "Hola" (by decide)

/-! ### Claim C8 -/

/-- Claim C8, as stated, is false for nonempty whitespace-only text:
`translate_text` returns the empty string as the translated text, not the
whitespace text unchanged. -/
theorem c8_counterexample :
    translate_text "en" (some "X") "  " "fr" =
      ({ translated_text := "", original_text := "  " }, false) ∧
    ("" : String) ≠ "  " := by
  decide

/-- Claim C8 (amended): for every empty or whitespace-only text,
`translate_text` returns the empty string as the translated text (the
original text is preserved in `original_text`) and issues no network
call. -/
theorem c8_amended (target : String) (env : Option String) (text src : String)
    (h : text = "" ∨ pyStrip text = "") :
    translate_text target env text src =
      ({ translated_text := "", original_text := text }, false) := by
  rcases h with h | h
  · simp [translate_text, h]
  · simp [translate_text, h]

/-- Witness for `c8_amended` at a concrete whitespace-only call. -/
theorem c8_witness :
    translate_text "en" (some "X") " " "de" =
      ({ translated_text := "", original_text := " " }, false) :=
  c8_amended "en" (some "X") " " "de" (Or.inr (by decide))

/-! ### Claim C9 -/

/-- Claim C9 (confirmed): `detect_language` leaves the stored hypothesis
unchanged on every skip path (empty text or stripped text shorter than 10,
and in particular any text shorter than 10; a last successful detection
within the cooldown window), on external-call failure, and on a response
whose confidence does not exceed the threshold; the cache is replaced only
by an external result whose confidence exceeds the threshold, and once a
hypothesis is cached it never reverts to `none`. -/
theorem c9_hypothesis_retention (st : LDState) (now : ℚ)
    (resp : Option LanguageHypothesis) (text : String) :
    (detectSkip st now text = true →
      detect_language st now resp text =
        (st.cached_language.getD defaultHypothesis, st, false)) ∧
    (text.length < 10 → (detect_language st now resp text).2.1 = st) ∧
    (now - st.last_detection_time < st.cache_expiry →
      st.cached_language.isSome = true →
      (detect_language st now resp text).2.1 = st) ∧
    (resp = none → (detect_language st now resp text).2.1 = st) ∧
    (∀ dl, resp = some dl → dl.confidence ≤ st.confidence_threshold →
      (detect_language st now resp text).2.1 = st) ∧
    ((detect_language st now resp text).2.1.cached_language ≠ st.cached_language →
      ∃ dl, resp = some dl ∧ st.confidence_threshold < dl.confidence ∧
        (detect_language st now resp text).2.1.cached_language = some dl ∧
        (detect_language st now resp text).1 = dl) ∧
    (∀ h, st.cached_language = some h →
      (detect_language st now resp text).2.1.cached_language ≠ none) := by
  refine ⟨?_, ?_, ?_, ?_, ?_, ?_, ?_⟩
  · intro h
    simp [detect_language, h]
  · intro h
    have hskip : detectSkip st now text = true := by
      have hle := pyStrip_length_le text
      simp only [detectSkip, Bool.or_eq_true, decide_eq_true_eq]
      exact Or.inl (Or.inr (by omega))
    simp [detect_language, hskip]
  · intro h1 h2
    have hskip : detectSkip st now text = true := by
      simp only [detectSkip, Bool.or_eq_true, Bool.and_eq_true, decide_eq_true_eq]
      exact Or.inr ⟨h1, h2⟩
    simp [detect_language, hskip]
  · intro h
    subst h
    by_cases hs : detectSkip st now text = true <;> simp [detect_language, hs]
  · intro dl h hle
    subst h
    have hnl : ¬ st.confidence_threshold < dl.confidence := not_lt.mpr hle
    by_cases hs : detectSkip st now text = true <;> simp [detect_language, hs, hnl]
  · intro hne
    by_cases hs : detectSkip st now text = true
    · exact absurd (by simp [detect_language, hs]) hne
    · cases resp with
      | none => exact absurd (by simp [detect_language, hs]) hne
      | some dl =>
          by_cases hconf : st.confidence_threshold < dl.confidence
          · exact ⟨dl, rfl, hconf, by simp [detect_language, hs, hconf],
              by simp [detect_language, hs, hconf]⟩
          · exact absurd (by simp [detect_language, hs, hconf]) hne
  · intro h hh
    by_cases hs : detectSkip st now text = true
    · simp [detect_language, hs, hh]
    · cases resp with
      | none => simp [detect_language, hs, hh]
      | some dl =>
          by_cases hconf : st.confidence_threshold < dl.confidence <;>
            simp [detect_language, hs, hconf, hh]

/-- Witness for `c9_hypothesis_retention`: a short text, a failed call on a
long text, and a threshold-confidence response each leave the detector
state unchanged. -/
theorem c9_witness :
    (detect_language ldInit 0 none "hi").2.1 = ldInit ∧
    (detect_language ldInit 0 none "this is a longer sample text").2.1 = ldInit ∧
    (detect_language
      { cached_language := some { language_code := "es", confidence := 0.8 },
        confidence_threshold := 0.7, cache_expiry := 60, last_detection_time := 10 }
      100 (some { language_code := "fr", confidence := 0.7 })
      "this is a longer sample text").2.1 =
      { cached_language := some { language_code := "es", confidence := 0.8 },
        confidence_threshold := 0.7, cache_expiry := 60, last_detection_time := 10 } :=
  ⟨(c9_hypothesis_retention ldInit 0 none "hi").2.1 (by decide),
    (c9_hypothesis_retention ldInit 0 none "this is a longer sample text").2.2.2.1 rfl,
    (c9_hypothesis_retention _ 100 _ "this is a longer sample text").2.2.2.2.1
      { language_code := "fr", confidence := 0.7 } rfl (le_of_eq rfl)⟩

/-! ### Claim C10 -/

/-- Claim C10 (confirmed): `detect_language` is total — it always returns a
hypothesis record (the embedding is a total function; every failure mode of
the external call, including exceptions, is the `none` response) — and on
every skip, failure or low-confidence path taken while the cache is empty
it returns the built-in default hypothesis with language code "en" and
confidence 1.0, leaving the cache empty. -/
theorem c10_default_on_empty_cache (st : LDState) (now : ℚ)
    (resp : Option LanguageHypothesis) (text : String)
    (hc : st.cached_language = none)
    (hn : detectSkip st now text = true ∨
      ∀ dl, resp = some dl → dl.confidence ≤ st.confidence_threshold) :
    (detect_language st now resp text).1 =
      { language_code := "en", confidence := 1 } ∧
    (detect_language st now resp text).2.1.cached_language = none := by
  have hdef : defaultHypothesis = { language_code := "en", confidence := 1 } := rfl
  rcases hn with h | h
  · simp [detect_language, h, hc, hdef]
  · by_cases hs : detectSkip st now text = true
    · simp [detect_language, hs, hc, hdef]
    · cases resp with
      | none => simp [detect_language, hs, hc, hdef]
      | some dl =>
          have hnl : ¬ st.confidence_threshold < dl.confidence :=
            not_lt.mpr (h dl rfl)
          simp [detect_language, hs, hnl, hc, hdef]

/-- Witness for `c10_default_on_empty_cache` at a fresh detector and a
short text. -/
theorem c10_witness :
    (detect_language ldInit 0 none "hi").1 =
      { language_code := "en", confidence := 1 } :=
  (c10_default_on_empty_cache ldInit 0 none "hi" rfl (Or.inl (by decide))).1
